import Mathlib

/-!
Verification of the execution worker (`src/backend/execution-worker/main.go`)
of the code-editor repository.

The worker is shallowly embedded: every external interaction (Docker API
calls, filesystem operations, record-store writes, queue publishes) is
modelled by an environment record that fixes the outcome of each call, and
the functions `ExecuteCode` / `processJob` are transcribed from the Go
source as pure functions of that environment.  Besides the returned
`ExecutionResult`, the embedding produces a trace of observable events so
that cleanup ordering (Go `defer` semantics: deferred calls run in LIFO
order on every return) and publish/write ordering can be stated.
-/

namespace Worker

/-- Structure `ExecutionResult` from main.go lines 365-371.  `ExecutionTime`
(a Go `time.Duration`) is abstracted to a `Nat`; no claim constrains its
value. -/
structure ExecutionResult where
  Output        : String
  ExitCode      : Int
  ExecutionTime : Nat
  Status        : String
  Error         : String
  deriving Repr, DecidableEq

/-- Structure `LanguageConfig` from main.go lines 357-362.  `Timeout` is stored in
whole seconds (the registry only holds `DefaultTimeout = 5 * time.Second`). -/
structure LanguageConfig where
  Image     : String
  Extension : String
  Executor  : String
  Timeout   : Nat
  deriving Repr, DecidableEq

/-- Constant `DefaultTimeout` (main.go line 379): 5 seconds. -/
def DefaultTimeout : Nat := 5

/-- Rendering of a whole-second `time.Duration` by the Go `%v` verb, as used
in the timeout error message (main.go line 622): `5s` for five seconds. -/
def durationStr (secs : Nat) : String :=
  toString secs ++ "s"

/-- Registry `languageMap` (main.go lines 385-398): a two-entry map; lookup of a Go
map literal is the evident decision chain on the key. -/
def languageMap (language : String) : Option LanguageConfig :=
  if language = "python" then
    some ⟨"python:3.9-alpine", ".py", "python3", DefaultTimeout⟩
  else if language = "javascript" then
    some ⟨"node:18-alpine", ".js", "node", DefaultTimeout⟩
  else
    none

/-- Predicate `IsLanguageSupported` (main.go lines 778-781). -/
def IsLanguageSupported (language : String) : Bool :=
  (languageMap language).isSome

/-- List `SupportedLanguages` from the API gateway
(`src/backend/api-gateway/src/index.ts`): the Zod validation schema
accepts exactly these three identifiers. -/
def SupportedLanguages : List String :=
  ["python", "javascript", "cpp"]

/-- Go `strings.TrimRight(s, "\n\r\t ")` (main.go line 748): drop the
longest suffix of characters drawn from the cutset. -/
def goTrimRightWs (s : String) : String :=
  ⟨(s.data.reverse.dropWhile
      (fun c => c = '\n' ∨ c = '\r' ∨ c = '\t' ∨ c = ' ')).reverse⟩

/-- Combination of demultiplexed streams in `getContainerLogs`
(main.go lines 738-748): start from stdout; when stderr is non-empty,
first append a newline if stdout is non-empty and does not already end
with one, then append stderr; finally right-trim whitespace. -/
def combineLogs (stdout stderr : String) : String :=
  let output := stdout
  let output :=
    if stderr ≠ "" then
      (if output ≠ "" ∧ ¬ output.endsWith "\n" then output ++ "\n" else output)
        ++ stderr
    else output
  goTrimRightWs output

/-- Outcome of the `select` over the channels of `ContainerWait`
(main.go lines 606-652).  `werr e dl` models the error channel delivering a
non-nil error `e` (the Docker client never sends nil on it) with `dl`
recording whether `execCtx.Err() == context.DeadlineExceeded` at that
moment; `wstatus code errMsg` models the status channel delivering exit
code `code` with optional runtime error message; `wdone` models the
done channel of the context firing first. -/
inductive WaitOutcome where
  | werr (msg : String) (deadlineExceeded : Bool)
  | wstatus (code : Int) (errMsg : Option String)
  | wdone
  deriving Repr, DecidableEq

/-- Behaviour of the log-retrieval calls inside `getContainerLogs`
(main.go lines 705-751): `logsErr` — `ContainerLogs` fails; `demuxOk` —
`stdcopy.StdCopy` demultiplexes the stream into stdout and stderr;
`demuxFail m refetch` — `StdCopy` fails with `m` and the fallback re-fetch
yields the raw bytes `refetch` (or fails when `none`). -/
inductive LogsResult where
  | logsErr (msg : String)
  | demuxOk (stdout stderr : String)
  | demuxFail (msg : String) (refetch : Option String)
  deriving Repr, DecidableEq

/-- Function `getContainerLogs` (main.go lines 705-751) as a function of the
`LogsResult` of the environment.  Note the fallback path returns the raw buffer
without stream combination or trimming, exactly as the source does. -/
def getContainerLogs (lr : LogsResult) : Except String String :=
  match lr with
  | .logsErr msg => .error ("failed to get container logs: " ++ msg)
  | .demuxOk stdout stderr => .ok (combineLogs stdout stderr)
  | .demuxFail msg refetch =>
    match refetch with
    | some buf => .ok buf
    | none => .error ("failed to read container logs: " ++ msg)

/-- Observable events of one `ExecuteCode` run.  Acquisition events are
emitted when the corresponding call succeeds; `killContainer fresh`
records a `ContainerKill` and whether it used a fresh
`context.Background()`-derived context; `readLogs` records a call to
`getContainerLogs`; `removeContainer` / `removeScratch` record the two
deferred cleanups (main.go lines 481-486 and 580-584). -/
inductive ExecEv where
  | mkdirScratch
  | writeCode
  | createContainer
  | startContainer
  | killContainer (freshCtx : Bool)
  | readLogs
  | removeContainer
  | removeScratch
  deriving Repr, DecidableEq

/-- Environment for one `ExecuteCode` run: the outcome of every external
call it makes, in program order.  `elapsed` abstracts `time.Since(startTime)`. -/
structure ExecEnv where
  ensureImageErr : Option String
  mkdirErr       : Option String
  writeErr       : Option String
  createErr      : Option String
  startErr       : Option String
  wait           : WaitOutcome
  logs           : LogsResult
  elapsed        : Nat
  deriving Repr, DecidableEq

/-- Return value of `ExecuteCode`: the Go function returns
`(*ExecutionResult, error)`; `err` is the second component.  `trace` is
the event trace of the run. -/
structure ExecReturn where
  result : ExecutionResult
  err    : Option String
  trace  : List ExecEv
  deriving Repr, DecidableEq

/-- The canned timeout outcome (main.go lines 617-623 and 645-651). -/
def timeoutResult (cfg : LanguageConfig) (elapsed : Nat) : ExecutionResult :=
  { Output := "Execution timed out. Your code took too long to execute."
    ExitCode := 124
    ExecutionTime := elapsed
    Status := "timeout"
    Error := "execution exceeded " ++ durationStr cfg.Timeout ++ " limit" }

/-- The tail of `ExecuteCode` after the `select` resolved without a timeout
return (main.go lines 654-674): retrieve logs, fill `execError` from a log
failure only when it is still empty, and return.  Both deferred cleanups
(container removal registered last, hence first) run on this path. -/
def afterWait (env : ExecEnv) (execStatus : String) (execError : String)
    (exitCode : Int) : ExecReturn :=
  let p :=
    match getContainerLogs env.logs with
    | .ok o => (o, execError)
    | .error le =>
      ("", if execError = "" then "failed to retrieve output: " ++ le else execError)
  { result :=
      { Output := p.1, ExitCode := exitCode, ExecutionTime := env.elapsed
        Status := execStatus, Error := p.2 }
    err := none
    trace := [.mkdirScratch, .writeCode, .createContainer, .startContainer,
              .readLogs, .removeContainer, .removeScratch] }

/-- Function `ExecuteCode` (main.go lines 437-675), transcribed arm by arm.  Every
`return` of the source returns a nil Go error, reflected as `err := none`.
Trace suffixes encode the LIFO `defer` stack: `removeContainer` (registered
at line 580, after create succeeds) then `removeScratch` (registered at
line 481, after mkdir succeeds) run on every later exit. -/
def ExecuteCode (env : ExecEnv) (language : String) (_code : String)
    (_jobID : String) : ExecReturn :=
  match languageMap language with
  | none =>
    -- lines 440-450: unsupported language, before any external call
    { result := { Output := "", ExitCode := 1, ExecutionTime := env.elapsed
                  Status := "failed"
                  Error := "unsupported language: " ++ language }
      err := none, trace := [] }
  | some cfg =>
    match env.ensureImageErr with
    | some e =>
      -- lines 459-467: image pull failed; nothing acquired yet
      { result := { Output := "", ExitCode := 1, ExecutionTime := env.elapsed
                    Status := "failed", Error := "failed to pull image: " ++ e }
        err := none, trace := [] }
    | none =>
    match env.mkdirErr with
    | some e =>
      -- lines 472-480: scratch directory creation failed
      { result := { Output := "", ExitCode := 1, ExecutionTime := env.elapsed
                    Status := "failed"
                    Error := "failed to create execution directory: " ++ e }
        err := none, trace := [] }
    | none =>
    match env.writeErr with
    | some e =>
      -- lines 491-499: code write failed; deferred scratch removal runs
      { result := { Output := "", ExitCode := 1, ExecutionTime := env.elapsed
                    Status := "failed"
                    Error := "failed to write code file: " ++ e }
        err := none, trace := [.mkdirScratch, .removeScratch] }
    | none =>
    match env.createErr with
    | some e =>
      -- lines 558-574: container create failed; only scratch removal runs
      { result := { Output := "", ExitCode := 1, ExecutionTime := env.elapsed
                    Status := "failed"
                    Error := "failed to create container: " ++ e }
        err := none, trace := [.mkdirScratch, .writeCode, .removeScratch] }
    | none =>
    match env.startErr with
    | some e =>
      -- lines 588-596: start failed; container removal then scratch removal
      { result := { Output := "", ExitCode := 1, ExecutionTime := env.elapsed
                    Status := "failed"
                    Error := "failed to start container: " ++ e }
        err := none
        trace := [.mkdirScratch, .writeCode, .createContainer,
                  .removeContainer, .removeScratch] }
    | none =>
    match env.wait with
    | .werr msg deadlineExceeded =>
      if deadlineExceeded then
        -- lines 610-623: wait error while the deadline has fired: timeout,
        -- kill with a fresh context, then deferred cleanups
        { result := timeoutResult cfg env.elapsed
          err := none
          trace := [.mkdirScratch, .writeCode, .createContainer, .startContainer,
                    .killContainer true, .removeContainer, .removeScratch] }
      else
        -- lines 625-627: non-timeout wait error, falls through to logs
        afterWait env "failed" ("container wait error: " ++ msg) 1
    | .wstatus code errMsg =>
      if code = 0 then
        -- lines 629-632
        afterWait env "completed" "" 0
      else
        -- lines 633-637
        afterWait env "failed" (errMsg.getD "") code
    | .wdone =>
      -- lines 639-651: context done before any channel: timeout outcome
      { result := timeoutResult cfg env.elapsed
        err := none
        trace := [.mkdirScratch, .writeCode, .createContainer, .startContainer,
                  .killContainer true, .removeContainer, .removeScratch] }

/-- All external calls up to and including `ContainerStart` succeeded, so
the run reaches the `select` on the wait channels. -/
def setupOk (env : ExecEnv) : Prop :=
  env.ensureImageErr = none ∧ env.mkdirErr = none ∧ env.writeErr = none ∧
    env.createErr = none ∧ env.startErr = none

instance (env : ExecEnv) : Decidable (setupOk env) := by
  unfold setupOk; infer_instance

/-- Structure `Job` (main.go lines 27-32): the envelope shared with the API gateway. -/
structure Job where
  jobId       : String
  language    : String
  code        : String
  submittedAt : String
  deriving Repr, DecidableEq

/-- JSON values, at the granularity `encoding/json` observes after lexing.
A dequeued payload that is not valid JSON has no `GoJson` denotation and
corresponds to the lexical-error case in the callers of `unmarshalJob`; here
that case is the `jmalformed` constructor. -/
inductive GoJson where
  | jmalformed
  | jnull
  | jbool (b : Bool)
  | jnum (n : Int)
  | jstr (s : String)
  | jarr (elems : List GoJson)
  | jobj (fields : List (String × GoJson))

/-- Whether `key` is one of the four JSON tags of `Job` (main.go lines 28-31). -/
def isJobField (key : String) : Bool :=
  key = "jobId" || key = "language" || key = "code" || key = "submittedAt"

/-- Assign a decoded string to the struct field tagged `key`. -/
def assignField (j : Job) (key : String) (s : String) : Job :=
  if key = "jobId" then { j with jobId := s }
  else if key = "language" then { j with language := s }
  else if key = "code" then { j with code := s }
  else if key = "submittedAt" then { j with submittedAt := s }
  else j

/-- Decode one object member into the `Job` under construction, following
`encoding/json` struct decoding: an unknown key is skipped, a known key
with a JSON string sets the field, JSON null leaves it untouched, and any
other value type is an unmarshalling type error. -/
def setField (j : Job) (key : String) (v : GoJson) : Except String Job :=
  if isJobField key then
    match v with
    | .jstr s => .ok (assignField j key s)
    | .jnull => .ok j
    | _ => .error ("json: cannot unmarshal value into Go struct field Job."
        ++ key ++ " of type string")
  else .ok j

/-- Model of `json.Unmarshal(jobData, &job)` (main.go line 171) for the `Job` struct:
malformed input and non-object, non-null top-level values fail; `null`
leaves the zero value; an object fills fields from its members in order,
and a member that is absent simply leaves the field at its zero value `""`
— the Go `Unmarshal` performs no required-field check. -/
def unmarshalJob : GoJson → Except String Job
  | .jnull => .ok ⟨"", "", "", ""⟩
  | .jobj fields =>
    fields.foldlM (fun j kv => setField j kv.1 kv.2) ⟨"", "", "", ""⟩
  | _ => .error "json: cannot unmarshal value into Go value of type main.Job"

/-- Observable events of one `processJob` run.  `recordWrite id st r`
models a `updateJobStatus(ctx, id, st, r)` call being issued (main.go
lines 180, 210); `errBranchWrite` is the synthetic failed write of the
executor-error branch (lines 191-195); `publish` models
the `Publish` in `notifyAnalysisWorker` of the `{jobId, language, code}`
payload (lines 230-246). -/
inductive DispatchEv where
  | recordWrite (jobId status : String) (result : Option ExecutionResult)
  | errBranchWrite (jobId : String) (result : ExecutionResult)
  | publish (jobId language code : String)
  deriving Repr, DecidableEq

/-- Environment for one `processJob` run: the executor environment plus
the outcomes of the two record-store writes and of the publish.
`publishErr` is carried to state its irrelevance: the source only logs it. -/
structure DispatchEnv where
  execEnv            : ExecEnv
  updateProcessingErr : Option String
  updateTerminalErr   : Option String
  publishErr          : Option String
  deriving Repr, DecidableEq

/-- Function `processJob` (main.go lines 165-226), transcribed arm by arm; the
value is the trace of record-store and publish events the run issues.
An unmarshalling failure returns before any event (lines 171-174); a
failed processing write stops before execution (lines 180-183); a non-nil
executor error triggers the synthetic failed write (lines 189-197); a
failed terminal write returns before the publish (lines 210-213); the
publish is issued regardless of its own outcome (lines 218-223). -/
def processJob (env : DispatchEnv) (payload : GoJson) : List DispatchEv :=
  match unmarshalJob payload with
  | .error _ => []
  | .ok job =>
    let t1 : List DispatchEv := [.recordWrite job.jobId "processing" none]
    match env.updateProcessingErr with
    | some _ => t1
    | none =>
      let er := ExecuteCode env.execEnv job.language job.code job.jobId
      match er.err with
      | some e =>
        t1 ++ [.errBranchWrite job.jobId
          { Output := "", ExitCode := 0, ExecutionTime := 0
            Status := "failed", Error := e }]
      | none =>
        let t2 := t1 ++ [.recordWrite job.jobId er.result.Status (some er.result)]
        match env.updateTerminalErr with
        | some _ => t2
        | none => t2 ++ [.publish job.jobId job.language job.code]

/-- The output format claimed by the specification, in the vocabulary of the
specification: stdout, then a single newline exactly when stderr is non-empty and
stdout is non-empty and does not already end with a newline, then stderr,
with trailing whitespace (spaces, tabs, carriage returns, newlines)
trimmed from the end of the combined string.  To be compared against
`combineLogs`, the formula transcribed from `getContainerLogs`. -/
def specCombineOutput (stdout stderr : String) : String :=
  goTrimRightWs
    (stdout
      ++ (if stderr ≠ "" ∧ stdout ≠ "" ∧ ¬ stdout.endsWith "\n" then "\n" else "")
      ++ stderr)

/-- C9: the worker registry has exactly the entries `python` and
`javascript`, each with a 5-second timeout; the validation schema of the API gateway
 additionally accepts `cpp`; and on `cpp` the worker function `ExecuteCode`
produces a failed outcome with error `unsupported language: cpp` without
any external call. -/
theorem language_registry_vs_api_schema :
    (∀ l, (languageMap l).isSome ↔ (l = "python" ∨ l = "javascript"))
    ∧ (languageMap "python").map LanguageConfig.Timeout = some 5
    ∧ (languageMap "javascript").map LanguageConfig.Timeout = some 5
    ∧ "cpp" ∈ SupportedLanguages
    ∧ languageMap "cpp" = none
    ∧ ∀ env code jobID,
        (ExecuteCode env "cpp" code jobID).result.Status = "failed"
        ∧ (ExecuteCode env "cpp" code jobID).result.Error = "unsupported language: cpp"
        ∧ (ExecuteCode env "cpp" code jobID).trace = [] := by
  refine ⟨?_, by decide, by decide, by decide, by decide, ?_⟩
  · intro l
    unfold languageMap
    split_ifs <;> simp_all
  · intro env code jobID
    unfold ExecuteCode
    rw [(by decide : languageMap "cpp" = none)]
    exact ⟨rfl, rfl, rfl⟩

/-- Every `return` statement of `ExecuteCode` returns a nil Go error. -/
theorem executeCode_err_eq_none (env : ExecEnv) (language code jobID : String) :
    (ExecuteCode env language code jobID).err = none := by
  obtain ⟨ie, me, we, ce, se, w, lg, el⟩ := env
  unfold ExecuteCode
  cases languageMap language <;>
    [rfl;
     (cases ie <;> [skip; rfl]
      cases me <;> [skip; rfl]
      cases we <;> [skip; rfl]
      cases ce <;> [skip; rfl]
      cases se <;> [skip; rfl]
      cases w <;> simp [afterWait] <;> split <;> simp [afterWait])]

/-- C10: `ExecuteCode` never returns a non-nil error — every exit path
yields a result with the failure encoded in `Status` and `Error` — and
consequently the dispatcher executor-error branch (the synthetic failed
write) is unreachable: no `processJob` trace contains it. -/
theorem executeCode_never_errors :
    (∀ env language code jobID, (ExecuteCode env language code jobID).err = none)
    ∧ ∀ denv payload jobId r,
        DispatchEv.errBranchWrite jobId r ∉ processJob denv payload := by
  refine ⟨executeCode_err_eq_none, ?_⟩
  intro denv payload jobId r
  unfold processJob
  cases hm : unmarshalJob payload with
  | error e => simp
  | ok job =>
    cases hp : denv.updateProcessingErr with
    | some e => simp
    | none =>
      cases ht : denv.updateTerminalErr <;> simp [executeCode_err_eq_none]

/-- Closed instance of C10 at a concrete environment and payload. -/
theorem executeCode_never_errors_witness :
    (ExecuteCode ⟨none, none, none, none, none, .wstatus 0 none,
        .demuxOk "5050" "", 40⟩ "python" "print(1)" "job-1").err = none
    ∧ DispatchEv.errBranchWrite "job-1"
        ⟨"", 0, 0, "failed", "x"⟩ ∉
        processJob ⟨⟨none, none, none, none, none, .wstatus 0 none,
          .demuxOk "5050" "", 40⟩, none, none, none⟩ (GoJson.jobj []) :=
  ⟨executeCode_never_errors.1 _ "python" "print(1)" "job-1",
   executeCode_never_errors.2 _ (GoJson.jobj []) "job-1" _⟩

/-- C5: an unregistered language makes `ExecuteCode` return the outcome
`{failed, "", 1, elapsed, "unsupported language: <lang>"}` with an empty
trace (in particular no container is created), and when such a job reaches
the dispatcher past a successful processing write, the terminal outcome is
still written to the record store. -/
theorem executeCode_unsupported_language
    (env : ExecEnv) (denv : DispatchEnv) (language code jobID : String)
    (payload : GoJson) (job : Job)
    (hl : languageMap language = none)
    (hm : unmarshalJob payload = .ok job)
    (hl2 : languageMap job.language = none)
    (hp : denv.updateProcessingErr = none) :
    ExecuteCode env language code jobID =
      { result := { Output := "", ExitCode := 1, ExecutionTime := env.elapsed
                    Status := "failed"
                    Error := "unsupported language: " ++ language }
        err := none, trace := [] }
    ∧ DispatchEv.recordWrite job.jobId "failed"
        (some { Output := "", ExitCode := 1
                ExecutionTime := denv.execEnv.elapsed, Status := "failed"
                Error := "unsupported language: " ++ job.language })
        ∈ processJob denv payload := by
  constructor
  · unfold ExecuteCode
    rw [hl]
  · unfold processJob
    rw [hm, hp]
    have he : ExecuteCode denv.execEnv job.language job.code job.jobId =
        { result := { Output := "", ExitCode := 1
                      ExecutionTime := denv.execEnv.elapsed, Status := "failed"
                      Error := "unsupported language: " ++ job.language }
          err := none, trace := [] } := by
      unfold ExecuteCode; rw [hl2]
    cases ht : denv.updateTerminalErr <;> simp [he]

/-- Closed instance of C5: the end-to-end scenario 5 input, language
`brainfuck`, with every record-store write succeeding. -/
theorem executeCode_unsupported_language_witness :
    ExecuteCode ⟨none, none, none, none, none, .wstatus 0 none,
        .demuxOk "" "", 3⟩ "brainfuck" "+" "job-5" =
      { result := { Output := "", ExitCode := 1, ExecutionTime := 3
                    Status := "failed"
                    Error := "unsupported language: brainfuck" }
        err := none, trace := [] }
    ∧ DispatchEv.recordWrite "job-5" "failed"
        (some { Output := "", ExitCode := 1, ExecutionTime := 3
                Status := "failed"
                Error := "unsupported language: brainfuck" })
        ∈ processJob
            ⟨⟨none, none, none, none, none, .wstatus 0 none, .demuxOk "" "", 3⟩,
              none, none, none⟩
            (GoJson.jobj [("jobId", .jstr "job-5"), ("language", .jstr "brainfuck"),
              ("code", .jstr "+"), ("submittedAt", .jstr "t0")]) :=
  executeCode_unsupported_language _ _ "brainfuck" "+" "job-5" _
    ⟨"job-5", "brainfuck", "+", "t0"⟩ (by decide) rfl (by decide) rfl

/-- C1: with a registered language and all setup calls succeeding, if the
per-job deadline fires before the container exits — the done channel wins
the select, or the wait errors while the deadline has already been
exceeded — then `ExecuteCode` returns the canned timeout outcome (status
`timeout`, exit code 124, canned output, error naming the timeout) and the
trace records a container kill through a fresh non-cancelled context. -/
theorem executeCode_timeout_outcome
    (env : ExecEnv) (cfg : LanguageConfig) (language code jobID msg : String)
    (hl : languageMap language = some cfg)
    (hs : setupOk env)
    (hw : env.wait = .wdone ∨ env.wait = .werr msg true) :
    (ExecuteCode env language code jobID).result =
      { Output := "Execution timed out. Your code took too long to execute."
        ExitCode := 124, ExecutionTime := env.elapsed, Status := "timeout"
        Error := "execution exceeded " ++ durationStr cfg.Timeout ++ " limit" }
    ∧ ExecEv.killContainer true ∈ (ExecuteCode env language code jobID).trace := by
  obtain ⟨h1, h2, h3, h4, h5⟩ := hs
  unfold ExecuteCode
  rw [hl, h1, h2, h3, h4, h5]
  rcases hw with hw | hw <;> rw [hw] <;> simp [timeoutResult]

/-- Closed instance of C1: a Python job whose wait errors after the
5-second deadline has fired. -/
theorem executeCode_timeout_outcome_witness :
    (ExecuteCode ⟨none, none, none, none, none,
        .werr "context deadline exceeded" true, .demuxOk "" "", 5002⟩
        "python" "while True: pass" "job-3").result =
      { Output := "Execution timed out. Your code took too long to execute."
        ExitCode := 124, ExecutionTime := 5002, Status := "timeout"
        Error := "execution exceeded 5s limit" }
    ∧ ExecEv.killContainer true ∈
        (ExecuteCode ⟨none, none, none, none, none,
          .werr "context deadline exceeded" true, .demuxOk "" "", 5002⟩
          "python" "while True: pass" "job-3").trace :=
  executeCode_timeout_outcome _ ⟨"python:3.9-alpine", ".py", "python3", 5⟩
    "python" "while True: pass" "job-3" "context deadline exceeded"
    (by decide) (by decide) (Or.inr rfl)

theorem afterWait_status (env : ExecEnv) (st er : String) (ec : Int) :
    (afterWait env st er ec).result.Status = st := rfl

theorem afterWait_exitCode (env : ExecEnv) (st er : String) (ec : Int) :
    (afterWait env st er ec).result.ExitCode = ec := rfl

theorem afterWait_trace (env : ExecEnv) (st er : String) (ec : Int) :
    (afterWait env st er ec).trace =
      [.mkdirScratch, .writeCode, .createContainer, .startContainer,
       .readLogs, .removeContainer, .removeScratch] := rfl

/-- Exhaustive case analysis of the status and exit code of an
`ExecuteCode` outcome: every exit path yields `failed` with exit code 1,
`timeout` with 124, `completed` with 0, or `failed` with the non-zero container
exit code. -/
theorem executeCode_result_cases (env : ExecEnv) (language code jobID : String) :
    ((ExecuteCode env language code jobID).result.Status = "failed"
      ∧ (ExecuteCode env language code jobID).result.ExitCode = 1)
    ∨ ((ExecuteCode env language code jobID).result.Status = "timeout"
      ∧ (ExecuteCode env language code jobID).result.ExitCode = 124)
    ∨ ((ExecuteCode env language code jobID).result.Status = "completed"
      ∧ (ExecuteCode env language code jobID).result.ExitCode = 0)
    ∨ ((ExecuteCode env language code jobID).result.Status = "failed"
      ∧ (ExecuteCode env language code jobID).result.ExitCode ≠ 0) := by
  obtain ⟨ie, me, we, ce, se, w, lg, el⟩ := env
  unfold ExecuteCode languageMap
  split_ifs <;>
    cases ie <;> cases me <;> cases we <;> cases ce <;> cases se <;> cases w <;>
    (try simp_all [afterWait_status, afterWait_exitCode, timeoutResult]) <;>
    (try split) <;>
    (try simp_all [afterWait_status, afterWait_exitCode, timeoutResult])

/-- Exhaustive case analysis of the trace of an `ExecuteCode` run: the
possible traces are exactly the cleanup-suffixed prefixes of the pipeline. -/
theorem executeCode_trace_cases (env : ExecEnv) (language code jobID : String) :
    (ExecuteCode env language code jobID).trace = []
    ∨ (ExecuteCode env language code jobID).trace
        = [.mkdirScratch, .removeScratch]
    ∨ (ExecuteCode env language code jobID).trace
        = [.mkdirScratch, .writeCode, .removeScratch]
    ∨ (ExecuteCode env language code jobID).trace
        = [.mkdirScratch, .writeCode, .createContainer,
           .removeContainer, .removeScratch]
    ∨ (ExecuteCode env language code jobID).trace
        = [.mkdirScratch, .writeCode, .createContainer, .startContainer,
           .killContainer true, .removeContainer, .removeScratch]
    ∨ (ExecuteCode env language code jobID).trace
        = [.mkdirScratch, .writeCode, .createContainer, .startContainer,
           .readLogs, .removeContainer, .removeScratch] := by
  obtain ⟨ie, me, we, ce, se, w, lg, el⟩ := env
  unfold ExecuteCode languageMap
  split_ifs <;>
    cases ie <;> cases me <;> cases we <;> cases ce <;> cases se <;> cases w <;>
    (try simp_all [afterWait_trace]) <;>
    (try split) <;>
    (try simp_all [afterWait_trace])

/-- Helper for C2: the status of every `ExecuteCode` outcome is one of the
three terminal strings. -/
theorem executeCode_status_mem (env : ExecEnv) (language code jobID : String) :
    (ExecuteCode env language code jobID).result.Status = "completed"
    ∨ (ExecuteCode env language code jobID).result.Status = "failed"
    ∨ (ExecuteCode env language code jobID).result.Status = "timeout" := by
  rcases executeCode_result_cases env language code jobID with
    ⟨h, _⟩ | ⟨h, _⟩ | ⟨h, _⟩ | ⟨h, _⟩ <;> simp [h]

/-- Helper for C2: the outcome is `completed` exactly when the exit code
is zero. -/
theorem executeCode_completed_iff (env : ExecEnv) (language code jobID : String) :
    (ExecuteCode env language code jobID).result.Status = "completed"
    ↔ (ExecuteCode env language code jobID).result.ExitCode = 0 := by
  rcases executeCode_result_cases env language code jobID with
    ⟨h1, h2⟩ | ⟨h1, h2⟩ | ⟨h1, h2⟩ | ⟨h1, h2⟩ <;> simp [h1, h2]

/-- Helper for C2: when the container itself exits with a non-zero code
`c` (the status channel delivers `c ≠ 0`), the outcome is `failed` with
exit code `c` — in particular a self-inflicted 124 is `failed`, not
`timeout`. -/
theorem executeCode_nonzero_exit (env : ExecEnv) (cfg : LanguageConfig)
    (language code jobID : String) (c : Int) (em : Option String)
    (hl : languageMap language = some cfg) (hs : setupOk env)
    (hw : env.wait = .wstatus c em) (hc : c ≠ 0) :
    (ExecuteCode env language code jobID).result.Status = "failed"
    ∧ (ExecuteCode env language code jobID).result.ExitCode = c := by
  obtain ⟨h1, h2, h3, h4, h5⟩ := hs
  unfold ExecuteCode
  rw [hl, h1, h2, h3, h4, h5, hw]
  simp [hc, afterWait_status, afterWait_exitCode]

/-- C2: every outcome of `ExecuteCode` has status in
{completed, failed, timeout}; the status is `completed` iff the exit code
is 0; and a container exit with any non-zero code `c` — including the
container itself exiting with 124 — is reported as `failed` with exit
code `c` (never `timeout`). -/
theorem executeCode_status_space (env : ExecEnv) (language code jobID : String) :
    ((ExecuteCode env language code jobID).result.Status = "completed"
      ∨ (ExecuteCode env language code jobID).result.Status = "failed"
      ∨ (ExecuteCode env language code jobID).result.Status = "timeout")
    ∧ ((ExecuteCode env language code jobID).result.Status = "completed"
        ↔ (ExecuteCode env language code jobID).result.ExitCode = 0)
    ∧ ∀ cfg c em, languageMap language = some cfg → setupOk env →
        env.wait = .wstatus c em → c ≠ 0 →
        (ExecuteCode env language code jobID).result.Status = "failed"
        ∧ (ExecuteCode env language code jobID).result.ExitCode = c :=
  ⟨executeCode_status_mem env language code jobID,
   executeCode_completed_iff env language code jobID,
   fun cfg c em hl hs hw hc =>
     executeCode_nonzero_exit env cfg language code jobID c em hl hs hw hc⟩

/-- Closed instance of C2 at a job whose container exits with code 124 on
its own: the outcome is `failed`, exit code 124. -/
theorem executeCode_status_space_witness :
    ((ExecuteCode ⟨none, none, none, none, none, .wstatus 124 none,
        .demuxOk "" "", 15⟩ "python" "exit(124)" "job-2").result.Status = "failed"
      ∧ (ExecuteCode ⟨none, none, none, none, none, .wstatus 124 none,
        .demuxOk "" "", 15⟩ "python" "exit(124)" "job-2").result.ExitCode = 124)
    ∧ ((ExecuteCode ⟨none, none, none, none, none, .wstatus 124 none,
        .demuxOk "" "", 15⟩ "python" "exit(124)" "job-2").result.Status = "completed"
      ↔ (ExecuteCode ⟨none, none, none, none, none, .wstatus 124 none,
        .demuxOk "" "", 15⟩ "python" "exit(124)" "job-2").result.ExitCode = 0) :=
  ⟨(executeCode_status_space _ "python" "exit(124)" "job-2").2.2
      ⟨"python:3.9-alpine", ".py", "python3", 5⟩ 124 none
      (by decide) (by decide) rfl (by decide),
   (executeCode_status_space _ "python" "exit(124)" "job-2").2.1⟩

/-- C3: on every exit path after the scratch directory is allocated, the
trace ends with its removal, and on every such path where a container was
created the container removal immediately precedes the scratch removal —
the LIFO order of the two deferred cleanups. -/
theorem executeCode_cleanup_ordering (env : ExecEnv) (language code jobID : String) :
    (ExecEv.mkdirScratch ∈ (ExecuteCode env language code jobID).trace →
      (ExecuteCode env language code jobID).trace.getLast?
        = some ExecEv.removeScratch)
    ∧ (ExecEv.createContainer ∈ (ExecuteCode env language code jobID).trace →
      ∃ pre, (ExecuteCode env language code jobID).trace
        = pre ++ [ExecEv.removeContainer, ExecEv.removeScratch]) := by
  rcases executeCode_trace_cases env language code jobID with
    h | h | h | h | h | h <;>
    rw [h] <;>
    refine ⟨fun hm => ?_, fun hc => ?_⟩ <;>
    first
      | exact absurd hm (by decide)
      | exact absurd hc (by decide)
      | decide
      | exact ⟨[ExecEv.mkdirScratch, ExecEv.writeCode, ExecEv.createContainer], rfl⟩
      | exact ⟨[ExecEv.mkdirScratch, ExecEv.writeCode, ExecEv.createContainer,
                ExecEv.startContainer, ExecEv.killContainer true], rfl⟩
      | exact ⟨[ExecEv.mkdirScratch, ExecEv.writeCode, ExecEv.createContainer,
                ExecEv.startContainer, ExecEv.readLogs], rfl⟩

/-- Closed instance of C3 at a run that created a container and completed
normally. -/
theorem executeCode_cleanup_ordering_witness :
    ((ExecuteCode ⟨none, none, none, none, none, .wstatus 0 none,
        .demuxOk "ok" "", 9⟩ "javascript" "console.log(1)" "job-4").trace.getLast?
      = some ExecEv.removeScratch)
    ∧ ∃ pre, (ExecuteCode ⟨none, none, none, none, none, .wstatus 0 none,
        .demuxOk "ok" "", 9⟩ "javascript" "console.log(1)" "job-4").trace
        = pre ++ [ExecEv.removeContainer, ExecEv.removeScratch] :=
  ⟨(executeCode_cleanup_ordering _ "javascript" "console.log(1)" "job-4").1
      (by decide),
   (executeCode_cleanup_ordering _ "javascript" "console.log(1)" "job-4").2
      (by decide)⟩

/-- The stream combination of `getContainerLogs` coincides with the
description of the output format in the specification. -/
theorem combineLogs_eq_specCombine (stdout stderr : String) :
    combineLogs stdout stderr = specCombineOutput stdout stderr := by
  unfold combineLogs specCombineOutput
  by_cases he : stderr = "" <;> by_cases ho : stdout = "" <;>
    by_cases hn : stdout.endsWith "\n" <;>
    simp [he, ho, hn, String.append_empty]

/-- C6: for a non-timeout container exit whose log stream demultiplexes
into `stdout` and `stderr`, the output of the outcome is stdout followed by
stderr, with a single newline inserted exactly when stderr is non-empty
and stdout is non-empty and does not already end with a newline, and with
trailing whitespace trimmed from the end. -/
theorem executeCode_output_combination (env : ExecEnv) (cfg : LanguageConfig)
    (language code jobID : String) (c : Int) (em : Option String)
    (stdout stderr : String)
    (hl : languageMap language = some cfg) (hs : setupOk env)
    (hw : env.wait = .wstatus c em) (hlg : env.logs = .demuxOk stdout stderr) :
    (ExecuteCode env language code jobID).result.Output
      = specCombineOutput stdout stderr := by
  obtain ⟨h1, h2, h3, h4, h5⟩ := hs
  unfold ExecuteCode
  rw [hl, h1, h2, h3, h4, h5, hw]
  by_cases hc : c = 0 <;>
    simp [hc, afterWait, getContainerLogs, hlg, combineLogs_eq_specCombine]

/-- Closed instance of C6: stdout `hi` (no trailing newline) and a
non-empty stderr get a newline separator. -/
theorem executeCode_output_combination_witness :
    (ExecuteCode ⟨none, none, none, none, none, .wstatus 1 none,
        .demuxOk "hi" "boom\n", 12⟩ "python" "x" "job-6").result.Output
      = specCombineOutput "hi" "boom\n" :=
  executeCode_output_combination _ ⟨"python:3.9-alpine", ".py", "python3", 5⟩
    "python" "x" "job-6" 1 none "hi" "boom\n" (by decide) (by decide) rfl rfl

/-- C4: a publish on the broadcast channel carries exactly the
`{jobId, language, code}` of the parsed job and occurs only when the terminal
record-store write was issued and succeeded; and the run behaviour —
in particular its record-store writes — is unchanged by the outcome of
the publish itself, which the source only logs. -/
theorem processJob_publish_gating (env : DispatchEnv) (payload : GoJson) :
    (∀ j l c, DispatchEv.publish j l c ∈ processJob env payload →
      env.updateTerminalErr = none
      ∧ ∃ job, unmarshalJob payload = .ok job
          ∧ j = job.jobId ∧ l = job.language ∧ c = job.code)
    ∧ ∀ e, processJob { env with publishErr := e } payload
        = processJob env payload := by
  obtain ⟨ee, pe, te, be⟩ := env
  constructor
  · intro j l c hmem
    unfold processJob at hmem
    cases hm : unmarshalJob payload with
    | error e => rw [hm] at hmem; simp at hmem
    | ok job =>
      rw [hm] at hmem
      cases pe with
      | some e => simp at hmem
      | none =>
        simp only [executeCode_err_eq_none] at hmem
        cases te with
        | some e => simp at hmem
        | none =>
          simp at hmem
          obtain ⟨hj, hl2, hc2⟩ := hmem
          exact ⟨rfl, job, rfl, hj, hl2, hc2⟩
  · intro e; rfl

/-- Closed instance of C4: at a run whose terminal write succeeds, the
publish carries the job fields, and a failing publish leaves the trace
unchanged. -/
theorem processJob_publish_gating_witness :
    ((⟨⟨none, none, none, none, none, .wstatus 0 none, .demuxOk "2" "", 20⟩,
        none, none, none⟩ : DispatchEnv).updateTerminalErr = none
      ∧ ∃ job, unmarshalJob (GoJson.jobj [("jobId", .jstr "job-7"),
            ("language", .jstr "python"), ("code", .jstr "print(2)"),
            ("submittedAt", .jstr "t1")]) = .ok job
          ∧ "job-7" = job.jobId ∧ "python" = job.language
          ∧ "print(2)" = job.code)
    ∧ processJob
        { (⟨⟨none, none, none, none, none, .wstatus 0 none, .demuxOk "2" "", 20⟩,
            none, none, none⟩ : DispatchEnv) with publishErr := some "broker down" }
        (GoJson.jobj [("jobId", .jstr "job-7"), ("language", .jstr "python"),
          ("code", .jstr "print(2)"), ("submittedAt", .jstr "t1")])
      = processJob
        ⟨⟨none, none, none, none, none, .wstatus 0 none, .demuxOk "2" "", 20⟩,
          none, none, none⟩
        (GoJson.jobj [("jobId", .jstr "job-7"), ("language", .jstr "python"),
          ("code", .jstr "print(2)"), ("submittedAt", .jstr "t1")]) :=
  ⟨(processJob_publish_gating _ _).1 "job-7" "python" "print(2)" (by decide),
   (processJob_publish_gating _ _).2 (some "broker down")⟩

/-- C7 counterexample: at a concrete timed-out run (the done
channel of the context wins the select), the outcome is `timeout` yet the trace contains
no log retrieval at all — refuting the part of the claim that says the
container logs are still retrieved and discarded during the cleanup
that follows a timeout. -/
theorem timeout_cleanup_reads_no_logs_cx :
    (ExecuteCode ⟨none, none, none, none, none, .wdone,
        .demuxOk "x" "", 5001⟩ "python" "while True: pass" "job-8").result.Status
      = "timeout"
    ∧ ExecEv.readLogs ∉
        (ExecuteCode ⟨none, none, none, none, none, .wdone,
          .demuxOk "x" "", 5001⟩ "python" "while True: pass" "job-8").trace := by
  decide

/-- C7 (amended): in the timeout path `ExecuteCode` never reads container
logs — neither for the output of the outcome, which is the canned message, nor
during cleanup, which only kills and force-removes the container. -/
theorem executeCode_timeout_no_log_read
    (env : ExecEnv) (cfg : LanguageConfig) (language code jobID msg : String)
    (hl : languageMap language = some cfg) (hs : setupOk env)
    (hw : env.wait = .wdone ∨ env.wait = .werr msg true) :
    (ExecuteCode env language code jobID).result.Output
      = "Execution timed out. Your code took too long to execute."
    ∧ ExecEv.readLogs ∉ (ExecuteCode env language code jobID).trace
    ∧ (ExecuteCode env language code jobID).trace
      = [.mkdirScratch, .writeCode, .createContainer, .startContainer,
         .killContainer true, .removeContainer, .removeScratch] := by
  obtain ⟨h1, h2, h3, h4, h5⟩ := hs
  unfold ExecuteCode
  rw [hl, h1, h2, h3, h4, h5]
  rcases hw with hw | hw <;> rw [hw] <;> exact ⟨rfl, by simp, rfl⟩

/-- Closed instance of the amended C7. -/
theorem executeCode_timeout_no_log_read_witness :
    (ExecuteCode ⟨none, none, none, none, none, .wdone, .logsErr "gone", 6000⟩
        "javascript" "for(;;);" "job-9").result.Output
      = "Execution timed out. Your code took too long to execute."
    ∧ ExecEv.readLogs ∉
        (ExecuteCode ⟨none, none, none, none, none, .wdone, .logsErr "gone", 6000⟩
          "javascript" "for(;;);" "job-9").trace
    ∧ (ExecuteCode ⟨none, none, none, none, none, .wdone, .logsErr "gone", 6000⟩
          "javascript" "for(;;);" "job-9").trace
      = [.mkdirScratch, .writeCode, .createContainer, .startContainer,
         .killContainer true, .removeContainer, .removeScratch] :=
  executeCode_timeout_no_log_read _ ⟨"node:18-alpine", ".js", "node", 5⟩
    "javascript" "for(;;);" "job-9" "" (by decide) (by decide) (Or.inl rfl)

/-- C8 counterexample: the empty JSON object is valid JSON that lacks all
four required fields, yet `processJob` does not drop it — the Go
`json.Unmarshal` succeeds with zero-valued fields, and a record-store
write for the empty job id is issued. -/
theorem missing_fields_not_dropped_cx :
    DispatchEv.recordWrite "" "processing" none ∈
      processJob ⟨⟨none, none, none, none, none, .wstatus 0 none,
        .demuxOk "" "", 1⟩, none, none, none⟩ (GoJson.jobj []) := by
  decide

/-- C8 (amended): only payloads on which `json.Unmarshal` fails — input
that is not valid JSON, a non-object non-null top level, or a required
field bound to a non-string value — are dropped, with no record-store
write, no execution and no notification; a valid JSON object that merely
lacks required fields is processed with those fields empty. -/
theorem processJob_drops_unmarshal_failures
    (env : DispatchEnv) (payload : GoJson) (msg : String)
    (hm : unmarshalJob payload = .error msg) :
    processJob env payload = [] := by
  unfold processJob
  rw [hm]

/-- Closed instance of the amended C8: a top-level JSON string fails
unmarshalling and is dropped without any event. -/
theorem processJob_drops_unmarshal_failures_witness :
    processJob ⟨⟨none, none, none, none, none, .wstatus 0 none,
        .demuxOk "" "", 1⟩, none, none, none⟩ (GoJson.jstr "not a job") = [] :=
  processJob_drops_unmarshal_failures _ (GoJson.jstr "not a job")
    "json: cannot unmarshal value into Go value of type main.Job" rfl

end Worker
